import Mathlib

/-!
Shallow embedding of the fixed-timestep update/render core of the
opengl-sandbox program (src/src/main.cpp).

The embedded parts are:
  - `Scene` (struct Scene, lines 273-295): the single mutable entity;
    GPU handles are modelled as opaque natural numbers, the angle as a
    real number (the C++ `float`/`double` arithmetic is idealised as
    exact real arithmetic, with `M_PI` as the real number pi).
  - `Update` (lines 297-320): the SDL event queue drained by
    `SDL_PollEvent` is passed explicitly as the list of pending events
    for this call; the angle advance and single-step wrap follow the
    source statement by statement.
  - `GameLoop` (lines 336-355): the platform clock
    (`SDL_GetPerformanceCounter`) is a function from read index to tick
    count, `SDL_GetPerformanceFrequency` a real parameter; the loop gets
    an explicit iteration budget (fuel) since the source loop need not
    terminate.  `Draw` (lines 322-334) takes Scene by const reference
    and only issues GPU commands, so it is modelled as a ghost counter
    (`drawCalls`), alongside a ghost counter of `Update` calls; event
    batches are indexed by the number of Update calls performed so far,
    because only an Update call drains the queue.
-/

open Real

namespace OpenGLSandbox

/-- SDL events as consumed by `Update`: `SDL_QUIT`, `SDL_KEYDOWN` with a
key symbol, and every other event type collapsed into one constructor. -/
inductive Event where
  | quit : Event
  | keyDown (key : Nat) : Event
  | other : Event
deriving DecidableEq

/-- The SDL key symbol `SDLK_q` (ASCII code of the letter q). -/
def SDLK_q : Nat := 113

/-- struct Scene (main.cpp lines 273-295).  `program` and `vertexArray`
are opaque GLuint handles, `vertexCount` a size_t, `angleShaderParameter`
a GLint, `angle` a float idealised as a real. -/
structure Scene where
  isRunning : Bool
  program : Nat
  vertexArray : Nat
  vertexCount : Nat
  angleShaderParameter : Int
  angle : ℝ

/-- The Scene constructor (main.cpp lines 274-285): member initialisers
set `vertexCount` to `sizeof(vertices)/sizeof(vertices[0])/vertexSize`,
i.e. the total number of floats divided (size_t truncating division) by
`vertexSize`; the default member initialisers set `isRunning = true` and
`angle = 0.0f`. -/
def mkScene (program vertexArray : Nat) (totalVertexFloats vertexSize : Nat)
    (angleParameter : Int) : Scene :=
  { isRunning := true
    program := program
    vertexArray := vertexArray
    vertexCount := totalVertexFloats / vertexSize
    angleShaderParameter := angleParameter
    angle := 0 }

/-- One arm of the `switch (event.type)` in `Update` (lines 301-312):
`SDL_QUIT` sets `isRunning = false`; `SDL_KEYDOWN` with symbol `SDLK_q`
sets `isRunning = false`; every other case falls through unchanged. -/
def handleEvent (scene : Scene) (event : Event) : Scene :=
  match event with
  | .quit => { scene with isRunning := false }
  | .keyDown key => if key = SDLK_q then { scene with isRunning := false } else scene
  | .other => scene

/-- Whether an event makes `Update` clear `isRunning`: `SDL_QUIT`, or
`SDL_KEYDOWN` on `SDLK_q`. -/
def isQuitEvent : Event → Bool
  | .quit => true
  | .keyDown key => key == SDLK_q
  | .other => false

/-- void Update(Scene*, double) (main.cpp lines 297-320): the
`while (SDL_PollEvent(&event))` loop drains the whole pending-event
queue (passed here explicitly), then
`scene->angle += 1.0 * secondsSinceLastUpdate;` and
`if (scene->angle > 2 * M_PI) scene->angle -= 2 * M_PI;`. -/
noncomputable def update (pendingEvents : List Event)
    (secondsSinceLastUpdate : ℝ) (scene : Scene) : Scene :=
  let polled := pendingEvents.foldl handleEvent scene
  let increased := polled.angle + 1.0 * secondsSinceLastUpdate
  { polled with angle := if increased > 2 * π then increased - 2 * π else increased }

/-- `const double secondsPerUpdate = 1.0 / 60.0;` (main.cpp line 338). -/
noncomputable def secondsPerUpdate : ℝ := 1.0 / 60.0

/-- The loop-local state of `GameLoop` (main.cpp lines 337-340) plus two
ghost counters of the calls performed so far. -/
structure LoopState where
  previousTickCount : ℝ
  accumulatedTime : ℝ
  scene : Scene
  updateCalls : Nat
  drawCalls : Nat

/-- One iteration of the `while (scene->isRunning)` body (main.cpp lines
343-353): read the clock, accumulate the elapsed seconds, run `Update`
at most once under the strict `accumulatedTime > secondsPerUpdate` test,
then `Draw` unconditionally (counted; `Draw` takes the Scene by const
reference and does not mutate it). -/
noncomputable def gameLoopStep (clock : Nat → ℝ) (ticksPerSecond : ℝ)
    (pendingEvents : Nat → List Event) (readIndex : Nat) (st : LoopState) : LoopState :=
  let currentTickCount := clock readIndex
  let deltaTickCount := currentTickCount - st.previousTickCount
  let accumulated := st.accumulatedTime + deltaTickCount / ticksPerSecond
  if accumulated > secondsPerUpdate then
    { previousTickCount := currentTickCount
      accumulatedTime := accumulated - secondsPerUpdate
      scene := update (pendingEvents st.updateCalls) secondsPerUpdate st.scene
      updateCalls := st.updateCalls + 1
      drawCalls := st.drawCalls + 1 }
  else
    { previousTickCount := currentTickCount
      accumulatedTime := accumulated
      scene := st.scene
      updateCalls := st.updateCalls
      drawCalls := st.drawCalls + 1 }

/-- The `while (scene->isRunning)` loop (main.cpp lines 342-354) with an
explicit iteration budget; the top-of-iteration check exits as soon as
`isRunning` is false.  `readIndex` numbers the clock reads, one per
iteration. -/
noncomputable def gameLoopRun (clock : Nat → ℝ) (ticksPerSecond : ℝ)
    (pendingEvents : Nat → List Event) : Nat → Nat → LoopState → LoopState
  | 0, _, st => st
  | fuel + 1, readIndex, st =>
    if st.scene.isRunning then
      gameLoopRun clock ticksPerSecond pendingEvents fuel (readIndex + 1)
        (gameLoopStep clock ticksPerSecond pendingEvents readIndex st)
    else st

/-- void GameLoop(SDL_Window*, Scene*) (main.cpp lines 336-355): the
pre-loop reads `previousTickCount = SDL_GetPerformanceCounter()` (clock
read 0) and `accumulatedTime = 0.0`, then the loop runs; the first
in-loop clock read has index 1. -/
noncomputable def gameLoop (clock : Nat → ℝ) (ticksPerSecond : ℝ)
    (pendingEvents : Nat → List Event) (fuel : Nat) (scene : Scene) : LoopState :=
  gameLoopRun clock ticksPerSecond pendingEvents fuel 1
    { previousTickCount := clock 0
      accumulatedTime := 0.0
      scene := scene
      updateCalls := 0
      drawCalls := 0 }

/-- A platform clock that advances by exactly `secondsPerUpdate` worth of
ticks between consecutive reads (used with `ticksPerSecond = 1`). -/
noncomputable def exactClock (readIndex : Nat) : ℝ := (readIndex : ℝ) * secondsPerUpdate

/-- An event source with no pending events at any Update call. -/
def noEvents : Nat → List Event := fun _ => []

/-- The Scene built in `main` (main.cpp lines 365-387): the quad mesh has
8 floats, `vertexSize = 2`; the GL-assigned handles and the uniform
location are opaque, fixed here to concrete values. -/
def sceneMain : Scene := mkScene 1 1 8 2 0

/-- `sceneMain` with `isRunning` already cleared. -/
def stoppedScene : Scene := { sceneMain with isRunning := false }

/-- Advancing one Update call with an empty pending-event queue. -/
noncomputable def noEventsTick : Scene → Scene := update [] secondsPerUpdate

/-- An event source delivering a single `SDL_QUIT` on the fourth Update
call (index 3) and nothing otherwise. -/
def quitAtFourthUpdate : Nat → List Event := fun k => if k = 3 then [Event.quit] else []

lemma handleEvent_fields (s : Scene) (e : Event) :
    (handleEvent s e).program = s.program ∧
    (handleEvent s e).vertexArray = s.vertexArray ∧
    (handleEvent s e).vertexCount = s.vertexCount ∧
    (handleEvent s e).angleShaderParameter = s.angleShaderParameter ∧
    (handleEvent s e).angle = s.angle := by
  cases e with
  | quit => exact ⟨rfl, rfl, rfl, rfl, rfl⟩
  | keyDown key =>
    by_cases h : key = SDLK_q <;> simp [handleEvent, h]
  | other => exact ⟨rfl, rfl, rfl, rfl, rfl⟩

lemma handleEvent_isRunning (s : Scene) (e : Event) :
    (handleEvent s e).isRunning = (s.isRunning && !(isQuitEvent e)) := by
  cases e with
  | quit => simp [handleEvent, isQuitEvent]
  | keyDown key =>
    by_cases h : key = SDLK_q <;> simp [handleEvent, isQuitEvent, h]
  | other => simp [handleEvent, isQuitEvent]

lemma foldl_handleEvent_proj {α : Type} (f : Scene → α)
    (hf : ∀ s e, f (handleEvent s e) = f s) :
    ∀ (evs : List Event) (s : Scene), f (evs.foldl handleEvent s) = f s := by
  intro evs
  induction evs with
  | nil => intro s; rfl
  | cons e rest ih => intro s; rw [List.foldl_cons, ih, hf]

lemma foldl_handleEvent_isRunning (evs : List Event) :
    ∀ s : Scene, (evs.foldl handleEvent s).isRunning =
      (s.isRunning && !(evs.any isQuitEvent)) := by
  induction evs with
  | nil => intro s; simp
  | cons e rest ih =>
    intro s
    rw [List.foldl_cons, ih, handleEvent_isRunning]
    simp [Bool.and_assoc]

lemma update_angle_eq (evs : List Event) (dt : ℝ) (s : Scene) :
    (update evs dt s).angle =
      if s.angle + 1.0 * dt > 2 * π then s.angle + 1.0 * dt - 2 * π
      else s.angle + 1.0 * dt := by
  have h := foldl_handleEvent_proj Scene.angle
    (fun s e => (handleEvent_fields s e).2.2.2.2) evs s
  simp only [update, h]

lemma update_isRunning_eq (evs : List Event) (dt : ℝ) (s : Scene) :
    (update evs dt s).isRunning = (s.isRunning && !(evs.any isQuitEvent)) := by
  simp only [update, foldl_handleEvent_isRunning]

lemma update_fixed_fields (evs : List Event) (dt : ℝ) (s : Scene) :
    (update evs dt s).program = s.program ∧
    (update evs dt s).vertexArray = s.vertexArray ∧
    (update evs dt s).vertexCount = s.vertexCount ∧
    (update evs dt s).angleShaderParameter = s.angleShaderParameter := by
  refine ⟨?_, ?_, ?_, ?_⟩ <;>
    simp only [update] <;>
    first
    | exact foldl_handleEvent_proj Scene.program
        (fun s e => (handleEvent_fields s e).1) evs s
    | exact foldl_handleEvent_proj Scene.vertexArray
        (fun s e => (handleEvent_fields s e).2.1) evs s
    | exact foldl_handleEvent_proj Scene.vertexCount
        (fun s e => (handleEvent_fields s e).2.2.1) evs s
    | exact foldl_handleEvent_proj Scene.angleShaderParameter
        (fun s e => (handleEvent_fields s e).2.2.2.1) evs s

lemma update_angle_step (evs : List Event) (dt : ℝ) (s : Scene)
    (h : ¬ s.angle + 1.0 * dt > 2 * π) :
    (update evs dt s).angle = s.angle + dt := by
  rw [update_angle_eq, if_neg h]
  norm_num

lemma angle_iter_formula (dt : ℝ) (hdt : 0 ≤ dt) :
    ∀ n : ℕ, (n : ℝ) * dt ≤ 2 * π → ∀ s : Scene, s.angle = 0 →
      ((update [] dt)^[n] s).angle = (n : ℝ) * dt := by
  intro n
  induction n with
  | zero => intro _ s hs; simpa using hs
  | succ n ih =>
    intro hle s hs
    have hstep : (n : ℝ) * dt ≤ ((n : ℝ) + 1) * dt := by nlinarith
    have hle' : (n : ℝ) * dt ≤ 2 * π := by
      calc (n : ℝ) * dt ≤ ((n : ℝ) + 1) * dt := hstep
        _ ≤ 2 * π := by push_cast at hle; linarith
    have hn := ih hle' s hs
    rw [Function.iterate_succ_apply', update_angle_step, hn]
    · push_cast
      ring
    · rw [hn]
      push_cast at hle ⊢
      intro hgt
      nlinarith

lemma update_angle_mem_Icc (evs : List Event) (dt : ℝ) (s : Scene)
    (h1 : 0 < dt) (h2 : dt ≤ 2 * π) (h3 : s.angle ∈ Set.Icc 0 (2 * π)) :
    (update evs dt s).angle ∈ Set.Icc 0 (2 * π) := by
  obtain ⟨hlo, hhi⟩ := h3
  rw [Set.mem_Icc, update_angle_eq]
  split_ifs with hgt
  · constructor <;> nlinarith
  · push_neg at hgt
    constructor <;> nlinarith

/-- Claim C4: each Update call sets the new angle to the old angle plus
`1.0 * dt`, then subtracts `2 * pi` exactly once if and only if the sum
exceeds `2 * pi` (a single-step wrap, not a general modulo); the event
drain never touches the angle. -/
theorem update_angle_single_step_wrap (evs : List Event) (dt : ℝ) (s : Scene) :
    (update evs dt s).angle =
      if s.angle + 1.0 * dt > 2 * π then s.angle + 1.0 * dt - 2 * π
      else s.angle + 1.0 * dt := by
  rw [update_angle_eq]

/-- Claim C3, counterexample: with the fixed timestep `dt = pi / 100`
(rate times dt is one two-hundredth of `2 * pi`) and `angle = 0` at the
start, after 200 Update calls the angle is exactly `2 * pi`, which lies
outside the half-open interval `[0, 2 * pi)` — the wrap test
`angle > 2 * pi` is strict, so an angle landing exactly on `2 * pi` is
not wrapped. -/
theorem angle_hits_two_pi :
    ((update [] (π / 100))^[200] sceneMain).angle = 2 * π ∧
    ¬ ((update [] (π / 100))^[200] sceneMain).angle ∈ Set.Ico 0 (2 * π) := by
  have hdt : (0 : ℝ) ≤ π / 100 := by positivity
  have hle : ((200 : ℕ) : ℝ) * (π / 100) ≤ 2 * π := by
    push_cast
    ring_nf
    exact le_refl _
  have h := angle_iter_formula (π / 100) hdt 200 hle sceneMain rfl
  have heq : ((update [] (π / 100))^[200] sceneMain).angle = 2 * π := by
    rw [h]; push_cast; ring
  refine ⟨heq, ?_⟩
  rw [heq, Set.mem_Ico]
  intro ⟨_, hlt⟩
  exact lt_irrefl _ hlt

/-- Claim C3 as amended: for every sequence of Update calls with a fixed
timestep `dt` satisfying `0 < dt` and `dt <= 2 * pi`, starting from an
angle in `[0, 2 * pi]`, the angle remains in the closed interval
`[0, 2 * pi]` after every call (the strict wrap test makes the right
endpoint `2 * pi` reachable, so the half-open interval of the original
claim is off exactly at that boundary). -/
theorem angle_wrap_invariant_closed (dt : ℝ) (batches : List (List Event))
    (s : Scene) (h1 : 0 < dt) (h2 : dt ≤ 2 * π)
    (h3 : s.angle ∈ Set.Icc 0 (2 * π)) :
    (batches.foldl (fun t evs => update evs dt t) s).angle ∈ Set.Icc 0 (2 * π) := by
  induction batches generalizing s with
  | nil => exact h3
  | cons evs rest ih =>
    rw [List.foldl_cons]
    exact ih (update evs dt s) (update_angle_mem_Icc evs dt s h1 h2 h3)

/-- Witness for the amended claim C3 at the concrete input `dt = 1`,
one Update call draining one non-quit event, starting from the scene
built in `main` (angle 0). -/
theorem angle_wrap_invariant_closed_witness :
    (([[Event.other]] : List (List Event)).foldl
      (fun t evs => update evs 1 t) sceneMain).angle ∈ Set.Icc 0 (2 * π) := by
  refine angle_wrap_invariant_closed 1 [[Event.other]] sceneMain (by norm_num)
    (by nlinarith [Real.pi_gt_d6]) ?_
  rw [Set.mem_Icc]
  refine ⟨le_of_eq ?_, ?_⟩
  · norm_num [sceneMain, mkScene]
  · rw [show sceneMain.angle = 0 from rfl]
    positivity

lemma angle_after_377_eq :
    ((update [] ((1 : ℝ) / 60))^[377] sceneMain).angle = 377 / 60 - 2 * π := by
  have hdt : (0 : ℝ) ≤ 1 / 60 := by norm_num
  have h376 : ((376 : ℕ) : ℝ) * ((1 : ℝ) / 60) ≤ 2 * π := by
    push_cast
    nlinarith [Real.pi_gt_d6]
  have h := angle_iter_formula ((1 : ℝ) / 60) hdt 376 h376 sceneMain rfl
  rw [show (377 : ℕ) = 376 + 1 from rfl, Function.iterate_succ_apply',
    update_angle_eq, h, if_pos]
  · push_cast
    ring
  · push_cast
    nlinarith [Real.pi_lt_d6]

/-- Claim C7, counterexample: starting from `angle = 0` with `dt = 1/60`
and rate 1.0 rad/s, after exactly 377 Update calls the angle is
`377/60 - 2 * pi` (it wrapped exactly once), but this residue exceeds
the claimed tolerance: `|angle - 0| > 1/10000`, since
`377/60 - 2 * pi` is about `1.48e-4`. -/
theorem angle_after_377_exceeds_tolerance :
    ((update [] ((1 : ℝ) / 60))^[377] sceneMain).angle = 377 / 60 - 2 * π ∧
    ¬ |((update [] ((1 : ℝ) / 60))^[377] sceneMain).angle - 0| ≤ 1 / 10000 := by
  refine ⟨angle_after_377_eq, ?_⟩
  rw [angle_after_377_eq, sub_zero, not_le, abs_of_pos]
  · nlinarith [Real.pi_lt_d6]
  · nlinarith [Real.pi_lt_d6]

/-- Claim C7 as amended: starting from `angle = 0` with `dt = 1/60` and
rate 1.0 rad/s, after exactly 377 Update calls the angle has wrapped
exactly once — it equals `377/60 - 2 * pi` — and is approximately 0
within a tolerance of `2e-4` (the exact residue, about `1.48e-4`, is
larger than the originally claimed `1e-4`). -/
theorem angle_after_377_within_two_e4 :
    ((update [] ((1 : ℝ) / 60))^[377] sceneMain).angle = 377 / 60 - 2 * π ∧
    |((update [] ((1 : ℝ) / 60))^[377] sceneMain).angle - 0| ≤ 2 / 10000 := by
  refine ⟨angle_after_377_eq, ?_⟩
  rw [angle_after_377_eq, sub_zero, abs_of_pos]
  · nlinarith [Real.pi_gt_d6]
  · nlinarith [Real.pi_lt_d6]

lemma noEventsTick_isRunning (s : Scene) :
    (noEventsTick s).isRunning = s.isRunning := by
  simp [noEventsTick, update_isRunning_eq]

lemma gameLoopRun_stopped (clock : Nat → ℝ) (tps : ℝ) (ev : Nat → List Event)
    (fuel readIndex : ℕ) (st : LoopState) (h : st.scene.isRunning = false) :
    gameLoopRun clock tps ev fuel readIndex st = st := by
  cases fuel with
  | zero => rfl
  | succ n => simp [gameLoopRun, h]

lemma gameLoopRun_succ (clock : Nat → ℝ) (tps : ℝ) (ev : Nat → List Event)
    (fuel readIndex : ℕ) (st : LoopState) (h : st.scene.isRunning = true) :
    gameLoopRun clock tps ev (fuel + 1) readIndex st =
      gameLoopRun clock tps ev fuel (readIndex + 1)
        (gameLoopStep clock tps ev readIndex st) := by
  simp [gameLoopRun, h]

lemma exactClock_delta (j : ℕ) :
    (exactClock (j + 1) - exactClock j) / 1 = secondsPerUpdate := by
  simp only [exactClock]
  push_cast
  ring

lemma gameLoopStep_exact_fire (ev : Nat → List Event) (i j : ℕ) (st : LoopState)
    (hij : i = j + 1) (hprev : st.previousTickCount = exactClock j)
    (hacc : st.accumulatedTime = secondsPerUpdate) :
    gameLoopStep exactClock 1 ev i st =
      { previousTickCount := exactClock i
        accumulatedTime := secondsPerUpdate
        scene := update (ev st.updateCalls) secondsPerUpdate st.scene
        updateCalls := st.updateCalls + 1
        drawCalls := st.drawCalls + 1 } := by
  subst hij
  simp only [gameLoopStep]
  rw [hprev, hacc, exactClock_delta]
  split_ifs with hc
  · congr 1
    ring
  · exact absurd (by norm_num [secondsPerUpdate]) hc

lemma gameLoopStep_exact_skip (ev : Nat → List Event) (i j : ℕ) (st : LoopState)
    (hij : i = j + 1) (hprev : st.previousTickCount = exactClock j)
    (hacc : st.accumulatedTime = 0) :
    gameLoopStep exactClock 1 ev i st =
      { previousTickCount := exactClock i
        accumulatedTime := secondsPerUpdate
        scene := st.scene
        updateCalls := st.updateCalls
        drawCalls := st.drawCalls + 1 } := by
  subst hij
  simp only [gameLoopStep]
  rw [hprev, hacc, exactClock_delta]
  split_ifs with hc
  · exact absurd hc (by norm_num [secondsPerUpdate])
  · congr 1
    ring

lemma run_exact_steady (fuel : ℕ) :
    ∀ (j u d : ℕ) (s : Scene), s.isRunning = true →
      gameLoopRun exactClock 1 noEvents fuel (j + 1)
        { previousTickCount := exactClock j
          accumulatedTime := secondsPerUpdate
          scene := s
          updateCalls := u
          drawCalls := d } =
      { previousTickCount := exactClock (j + fuel)
        accumulatedTime := secondsPerUpdate
        scene := noEventsTick^[fuel] s
        updateCalls := u + fuel
        drawCalls := d + fuel } := by
  induction fuel with
  | zero => intro j u d s _; rfl
  | succ n ih =>
    intro j u d s h
    have hrun : (noEventsTick s).isRunning = true := by
      rw [noEventsTick_isRunning, h]
    rw [gameLoopRun_succ _ _ _ _ _ _ h,
      gameLoopStep_exact_fire noEvents (j + 1) j _ rfl rfl rfl]
    have hmid := ih (j + 1) (u + 1) (d + 1) (noEventsTick s) hrun
    have e1 : j + 1 + n = j + (n + 1) := by omega
    have e2 : u + 1 + n = u + (n + 1) := by omega
    have e3 : d + 1 + n = d + (n + 1) := by omega
    rw [e1, e2, e3, ← Function.iterate_succ_apply] at hmid
    exact hmid

lemma gameLoop_exact_succ (ev : Nat → List Event) (fuel : ℕ) (s : Scene)
    (h : s.isRunning = true) :
    gameLoop exactClock 1 ev (fuel + 1) s =
      gameLoopRun exactClock 1 ev fuel 2
        { previousTickCount := exactClock 1
          accumulatedTime := secondsPerUpdate
          scene := s
          updateCalls := 0
          drawCalls := 1 } := by
  unfold gameLoop
  rw [gameLoopRun_succ _ _ _ _ _ _ h,
    gameLoopStep_exact_skip ev 1 0 _ rfl rfl (by norm_num)]

/-- Claim C1, counterexample: with the platform clock advancing by
exactly `secondsPerUpdate` between consecutive reads, the first
GameLoop iteration performs no Update call at all (the accumulator
reaches exactly `secondsPerUpdate` and the test
`accumulatedTime > secondsPerUpdate` is strict), while still performing
its one Draw — refuting "exactly one Update call occurs in every
iteration". -/
theorem first_iteration_skips_update :
    (gameLoop exactClock 1 noEvents 1 sceneMain).updateCalls = 0 ∧
    (gameLoop exactClock 1 noEvents 1 sceneMain).drawCalls = 1 := by
  have hone : gameLoop exactClock 1 noEvents 1 sceneMain =
      { previousTickCount := exactClock 1
        accumulatedTime := secondsPerUpdate
        scene := sceneMain
        updateCalls := 0
        drawCalls := 1 } :=
    gameLoop_exact_succ noEvents 0 sceneMain rfl
  rw [hone]
  exact ⟨rfl, rfl⟩

/-- Claim C1 as amended: if the platform clock advances by exactly
`secondsPerUpdate` between consecutive reads, every GameLoop iteration
performs exactly one Draw call, and every iteration except the first
performs exactly one Update call — the first performs none, because the
accumulator only reaches (does not exceed) `secondsPerUpdate` and the
catch-up test is strict.  Hence `n` iterations yield `n` Draw calls and
`n - 1` Update calls. -/
theorem exact_clock_iteration_counts (n : ℕ) (s : Scene) (h : s.isRunning = true) :
    (gameLoop exactClock 1 noEvents n s).drawCalls = n ∧
    (gameLoop exactClock 1 noEvents n s).updateCalls = n - 1 := by
  cases n with
  | zero => exact ⟨rfl, rfl⟩
  | succ m =>
    have hloop : gameLoop exactClock 1 noEvents (m + 1) s =
        { previousTickCount := exactClock (1 + m)
          accumulatedTime := secondsPerUpdate
          scene := noEventsTick^[m] s
          updateCalls := 0 + m
          drawCalls := 1 + m } := by
      rw [gameLoop_exact_succ noEvents m s h]
      exact run_exact_steady m 1 0 1 s h
    rw [hloop]
    constructor
    · show 1 + m = m + 1
      omega
    · show 0 + m = m + 1 - 1
      omega

/-- Witness for the amended claim C1: three iterations on the scene built
in `main` perform three Draw calls and two Update calls. -/
theorem exact_clock_iteration_counts_witness :
    (gameLoop exactClock 1 noEvents 3 sceneMain).drawCalls = 3 ∧
    (gameLoop exactClock 1 noEvents 3 sceneMain).updateCalls = 3 - 1 :=
  exact_clock_iteration_counts 3 sceneMain rfl

/-- Claim C2: in every iteration of GameLoop — for every clock, tick
frequency, event source and loop state, however large the accumulator
has grown — the iteration body invokes Update at most once (the
catch-up is an `if`, not a `while`) and invokes Draw exactly once,
whether or not Update ran. -/
theorem step_at_most_one_update_one_draw (clock : Nat → ℝ) (tps : ℝ)
    (ev : Nat → List Event) (i : ℕ) (st : LoopState) :
    (gameLoopStep clock tps ev i st).drawCalls = st.drawCalls + 1 ∧
    ((gameLoopStep clock tps ev i st).updateCalls = st.updateCalls ∨
      (gameLoopStep clock tps ev i st).updateCalls = st.updateCalls + 1) := by
  simp only [gameLoopStep]
  split_ifs with hc
  · exact ⟨rfl, Or.inr rfl⟩
  · exact ⟨rfl, Or.inl rfl⟩

lemma scenario_quit_run :
    gameLoop exactClock 1 quitAtFourthUpdate 100 sceneMain =
      { previousTickCount := exactClock 5
        accumulatedTime := secondsPerUpdate
        scene := update [Event.quit] secondsPerUpdate
          (noEventsTick (noEventsTick (noEventsTick sceneMain)))
        updateCalls := 4
        drawCalls := 5 } := by
  have h0 : gameLoop exactClock 1 quitAtFourthUpdate 100 sceneMain =
      gameLoopRun exactClock 1 quitAtFourthUpdate 99 2
        ⟨exactClock 1, secondsPerUpdate, sceneMain, 0, 1⟩ :=
    gameLoop_exact_succ quitAtFourthUpdate 99 sceneMain rfl
  have h1 : gameLoopRun exactClock 1 quitAtFourthUpdate 99 2
        ⟨exactClock 1, secondsPerUpdate, sceneMain, 0, 1⟩ =
      gameLoopRun exactClock 1 quitAtFourthUpdate 98 3
        ⟨exactClock 2, secondsPerUpdate, noEventsTick sceneMain, 1, 2⟩ := by
    have hs := gameLoopRun_succ exactClock 1 quitAtFourthUpdate 98 2
      ⟨exactClock 1, secondsPerUpdate, sceneMain, 0, 1⟩ rfl
    rw [gameLoopStep_exact_fire quitAtFourthUpdate 2 1 _ rfl rfl rfl] at hs
    exact hs
  have h2 : gameLoopRun exactClock 1 quitAtFourthUpdate 98 3
        ⟨exactClock 2, secondsPerUpdate, noEventsTick sceneMain, 1, 2⟩ =
      gameLoopRun exactClock 1 quitAtFourthUpdate 97 4
        ⟨exactClock 3, secondsPerUpdate, noEventsTick (noEventsTick sceneMain), 2, 3⟩ := by
    have hs := gameLoopRun_succ exactClock 1 quitAtFourthUpdate 97 3
      ⟨exactClock 2, secondsPerUpdate, noEventsTick sceneMain, 1, 2⟩ rfl
    rw [gameLoopStep_exact_fire quitAtFourthUpdate 3 2 _ rfl rfl rfl] at hs
    exact hs
  have h3 : gameLoopRun exactClock 1 quitAtFourthUpdate 97 4
        ⟨exactClock 3, secondsPerUpdate, noEventsTick (noEventsTick sceneMain), 2, 3⟩ =
      gameLoopRun exactClock 1 quitAtFourthUpdate 96 5
        ⟨exactClock 4, secondsPerUpdate,
          noEventsTick (noEventsTick (noEventsTick sceneMain)), 3, 4⟩ := by
    have hs := gameLoopRun_succ exactClock 1 quitAtFourthUpdate 96 4
      ⟨exactClock 3, secondsPerUpdate, noEventsTick (noEventsTick sceneMain), 2, 3⟩ rfl
    rw [gameLoopStep_exact_fire quitAtFourthUpdate 4 3 _ rfl rfl rfl] at hs
    exact hs
  have h4 : gameLoopRun exactClock 1 quitAtFourthUpdate 96 5
        ⟨exactClock 4, secondsPerUpdate,
          noEventsTick (noEventsTick (noEventsTick sceneMain)), 3, 4⟩ =
      gameLoopRun exactClock 1 quitAtFourthUpdate 95 6
        ⟨exactClock 5, secondsPerUpdate,
          update [Event.quit] secondsPerUpdate
            (noEventsTick (noEventsTick (noEventsTick sceneMain))), 4, 5⟩ := by
    have hs := gameLoopRun_succ exactClock 1 quitAtFourthUpdate 95 5
      ⟨exactClock 4, secondsPerUpdate,
        noEventsTick (noEventsTick (noEventsTick sceneMain)), 3, 4⟩ rfl
    rw [gameLoopStep_exact_fire quitAtFourthUpdate 5 4 _ rfl rfl rfl] at hs
    exact hs
  have h5 : gameLoopRun exactClock 1 quitAtFourthUpdate 95 6
        ⟨exactClock 5, secondsPerUpdate,
          update [Event.quit] secondsPerUpdate
            (noEventsTick (noEventsTick (noEventsTick sceneMain))), 4, 5⟩ =
      ⟨exactClock 5, secondsPerUpdate,
        update [Event.quit] secondsPerUpdate
          (noEventsTick (noEventsTick (noEventsTick sceneMain))), 4, 5⟩ :=
    gameLoopRun_stopped _ _ _ _ _ _ rfl
  exact h0.trans (h1.trans (h2.trans (h3.trans (h4.trans h5))))

/-- Claim C5: a loop state whose scene has `isRunning = false` makes the
top-of-iteration check exit at once — `gameLoopRun` returns the state
unchanged, with no further Update or Draw calls — and in the concrete
scenario where a Quit event is delivered to the Update call of
iteration 5 under the exact-step clock (with a 100-iteration budget),
the loop performs exactly 5 Draw calls and 4 Update calls and stops
with `isRunning = false`. -/
theorem quit_stops_loop_five_draws (clock : Nat → ℝ) (tps : ℝ)
    (ev : Nat → List Event) (fuel readIndex : ℕ) (st : LoopState)
    (h : st.scene.isRunning = false) :
    gameLoopRun clock tps ev fuel readIndex st = st ∧
    (gameLoop exactClock 1 quitAtFourthUpdate 100 sceneMain).drawCalls = 5 ∧
    (gameLoop exactClock 1 quitAtFourthUpdate 100 sceneMain).updateCalls = 4 ∧
    (gameLoop exactClock 1 quitAtFourthUpdate 100 sceneMain).scene.isRunning = false := by
  refine ⟨gameLoopRun_stopped clock tps ev fuel readIndex st h, ?_, ?_, ?_⟩
  · rw [scenario_quit_run]
  · rw [scenario_quit_run]
  · rw [scenario_quit_run]
    rfl

/-- Witness for claim C5: the exit check applied to a concrete stopped
state for a budget of 7 iterations, together with the concrete quit
scenario. -/
theorem quit_stops_loop_five_draws_witness :
    gameLoopRun exactClock 1 noEvents 7 1
      { previousTickCount := 0, accumulatedTime := 0, scene := stoppedScene,
        updateCalls := 0, drawCalls := 0 } =
      { previousTickCount := 0, accumulatedTime := 0, scene := stoppedScene,
        updateCalls := 0, drawCalls := 0 } ∧
    (gameLoop exactClock 1 quitAtFourthUpdate 100 sceneMain).drawCalls = 5 ∧
    (gameLoop exactClock 1 quitAtFourthUpdate 100 sceneMain).updateCalls = 4 ∧
    (gameLoop exactClock 1 quitAtFourthUpdate 100 sceneMain).scene.isRunning = false :=
  quit_stops_loop_five_draws exactClock 1 noEvents 7 1 _ rfl

/-- Claim C6: each Update call drains every pending platform event —
`isRunning` after the call is the conjunction of its previous value with
"no drained event was quit-type", so every event in the queue is
consulted — and per event, a quit request (`SDL_QUIT`) clears
`isRunning`, a key press on the designated quit key (`SDLK_q`) clears
`isRunning`, and every other event kind leaves the Scene unchanged. -/
theorem update_drains_events_quit_semantics (evs : List Event) (dt : ℝ) (s : Scene) :
    (update evs dt s).isRunning = (s.isRunning && !(evs.any isQuitEvent)) ∧
    ∀ e : Event, handleEvent s e =
      if isQuitEvent e then { s with isRunning := false } else s := by
  refine ⟨update_isRunning_eq evs dt s, ?_⟩
  intro e
  cases e with
  | quit => simp [handleEvent, isQuitEvent]
  | keyDown key =>
    by_cases h : key = SDLK_q <;> simp [handleEvent, isQuitEvent, h]
  | other => simp [handleEvent, isQuitEvent]

/-- Claim C8, counterexample: constructing a Scene from 7 vertex floats
with `vertexSize = 2` — a float count not divisible by the vertex size
— is neither rejected nor asserted against: the constructor succeeds
and the truncating division silently yields `vertexCount = 3`. -/
theorem scene_construction_truncates :
    (mkScene 1 1 7 2 0).vertexCount = 3 ∧ ¬ (7 % 2 = 0) := by
  decide

/-- Claim C8 as amended: Scene construction derives
`vertexCount = totalVertexFloats / vertexSize` by truncating integer
division (for the program's 8-float quad mesh with `vertexSize = 2` this
gives `vertexCount = 4`); a float count not divisible by `vertexSize` is
not rejected — the division truncates. -/
theorem vertex_count_derivation (program vertexArray totalVertexFloats vertexSize : Nat)
    (angleParameter : Int) :
    (mkScene program vertexArray totalVertexFloats vertexSize
        angleParameter).vertexCount = totalVertexFloats / vertexSize ∧
    (mkScene program vertexArray 8 2 angleParameter).vertexCount = 4 :=
  ⟨rfl, rfl⟩

/-- Claim C9: every Update call mutates only the `isRunning` and `angle`
fields of the Scene — for every pending-event list and every `dt`, the
`program`, `vertexArray`, `vertexCount` and `angleShaderParameter`
fields are unchanged. -/
theorem update_preserves_render_fields (evs : List Event) (dt : ℝ) (s : Scene) :
    (update evs dt s).program = s.program ∧
    (update evs dt s).vertexArray = s.vertexArray ∧
    (update evs dt s).vertexCount = s.vertexCount ∧
    (update evs dt s).angleShaderParameter = s.angleShaderParameter :=
  update_fixed_fields evs dt s

/-- Claim C10: `isRunning` is monotone towards false — the Scene
constructor initialises it to true, and if it is false before an Update
call it is still false afterwards, for every pending-event list and
every `dt` (no event handler ever sets it back to true). -/
theorem isRunning_monotone (evs : List Event) (dt : ℝ) (s : Scene)
    (program vertexArray totalVertexFloats vertexSize : Nat) (angleParameter : Int)
    (h : s.isRunning = false) :
    (mkScene program vertexArray totalVertexFloats vertexSize
        angleParameter).isRunning = true ∧
    (update evs dt s).isRunning = false := by
  refine ⟨rfl, ?_⟩
  rw [update_isRunning_eq, h]
  rfl

/-- Witness for claim C10: one Update call draining one non-quit event on
a concrete already-stopped scene. -/
theorem isRunning_monotone_witness :
    (mkScene 1 1 8 2 0).isRunning = true ∧
    (update [Event.other] 0 stoppedScene).isRunning = false :=
  isRunning_monotone [Event.other] 0 stoppedScene 1 1 8 2 0 rfl

end OpenGLSandbox
